import Mathlib

/-!
# Shallow embedding of the us-shipping-calculator rate engines

Embeds the three carrier calculation engines of the repository:

* `src/js/calculator.js` — FedEx Ground engine
* `src/js/amazon-calculator.js` — Amazon Shipping engine
* `src/js/yamato-calculator.js` — Yamato TA-Q-BIN engine

Modelling conventions:

* JS numbers are modelled as exact rationals (`ℚ`).
* `Math.ceil` is `Int.ceil`; JS `Math.round` (round half toward +∞) is
  Mathlib `round` on `ℚ`, which is `⌊x + 1/2⌋` and agrees with JS on all
  rationals, negative halves included.
* JS objects used as string-keyed maps become functions into `Option _`
  (a `none` is a missing key); the JS pattern `obj[k] || 0` on numeric
  values becomes a total function defaulting to `0`, and `x || d` on a
  number that may legitimately be present-but-zero is `jsOr`.
* The human-readable `reason` strings of the engines are display-only
  localized messages; where a claim depends on *which* reason is produced
  (the Yamato hard-limit errors) the branch is recorded as an inductive
  tag; the interpolated numbers in those strings are functions of the
  quantities modelled here.
* The surcharge `type` strings become inductive types.
-/

namespace Shipping

/-- JS `x || d` for a numeric `x`: `0` is falsy, so the default `d` is used
exactly when `x = 0`. -/
def jsOr (x d : ℚ) : ℚ := if x = 0 then d else x

/-- JS `Math.round(q * 100) / 100` — round to 2 decimal places. -/
def round2 (q : ℚ) : ℚ := ((round (q * 100) : ℤ) : ℚ) / 100

/-- JS `Math.round(q * 10) / 10` — round to 1 decimal place. -/
def round1 (q : ℚ) : ℚ := ((round (q * 10) : ℤ) : ℚ) / 10

-- ─── calculator.js : constants ───────────────────────────────────────

def DIM_DIVISOR : ℚ := 139

/-- JS `const KG_TO_LB = 2.2046`. -/
def KG_TO_LB : ℚ := 22046 / 10000

def MAX_TABLE_LB : ℚ := 150

-- ─── calculator.js : unit conversion ─────────────────────────────────

/-- JS `Math.ceil(cm / 2.54)`. -/
def cmToInchCeil (cm : ℚ) : ℤ := ⌈cm / (254 / 100)⌉

/-- JS `kg * KG_TO_LB`. -/
def kgToLb (kg : ℚ) : ℚ := kg * KG_TO_LB

-- ─── calculator.js : DIM weight ──────────────────────────────────────

/-- JS `calcDimWeight`: ceiled inches multiplied, divided by 139. -/
def calcDimWeight (L W H : ℚ) : ℚ :=
  ((cmToInchCeil L * cmToInchCeil W * cmToInchCeil H : ℤ) : ℚ) / DIM_DIVISOR

-- ─── shared : sorting the three sides descending ─────────────────────

/-- JS `[L, W, H].sort((a, b) => b - a)` — the three values in descending
order, as (largest, middle, smallest). The middle element of a
three-element multiset is the sum minus the max and the min. -/
def sort3desc (a b c : ℚ) : ℚ × ℚ × ℚ :=
  (max a (max b c), a + b + c - max a (max b c) - min a (min b c), min a (min b c))

/-- The `length + girth` quantity in ceiled inches that both the FedEx and
Amazon classifiers compute from the descending-sorted sides:
`maxDim_in + 2 * (secondDim_in + thirdDim_in)`. -/
def lengthGirthIn (a b c : ℚ) : ℤ :=
  let dims := sort3desc a b c
  cmToInchCeil dims.1 + 2 * (cmToInchCeil dims.2.1 + cmToInchCeil dims.2.2)

-- ─── calculator.js : surcharge determination ─────────────────────────

/-- Keys of the zone-keyed FedEx surcharge-amount table
(`surchargeData.amounts[zone][...]`). -/
inductive ScKey
  | ahsDim
  | ahsWeight
  | oversize
  | unauthorized
  deriving DecidableEq, Repr

/-- The FedEx surcharge `type` strings. -/
inductive ScType
  | Unauth
  | Oversize
  | AHSDim
  | AHSWgt
  | OK
  deriving DecidableEq, Repr

/-- Result of `determineSurcharge` (the `reason` display string is not
modelled; each branch interpolates quantities that are functions of the
inputs shown here). -/
structure ScOut where
  scType : ScType
  minLb : Option ℚ
  deriving DecidableEq, Repr

/-- JS `determineSurcharge(L_cm, W_cm, H_cm, weightKg, zone, scAmounts)`.
The zone-keyed amounts object is modelled as a total function defaulting
to `0` (`scAmounts[String(zone)] || {}` and `zoneData[k] || 0`).
The source names the AHS conditions `isAhsDim`, `isAhsDimLG`,
`ahsDimTriggered` and `isAhsWgt`; they are inlined here (the source
recomputes `lgInch` equal to `lengthGirth_in`). `22.68 = 2268/100`. -/
def determineSurcharge (L W H weightKg : ℚ) (zone : ℤ)
    (scAmounts : ℤ → ScKey → ℚ) : ScOut :=
  let dims := sort3desc L W H
  let maxDimIn := cmToInchCeil dims.1
  let secondDimIn := cmToInchCeil dims.2.1
  let thirdDimIn := cmToInchCeil dims.2.2
  let lg := maxDimIn + 2 * (secondDimIn + thirdDimIn)
  if 68 < weightKg then ⟨.Unauth, some 90⟩
  else if 108 < maxDimIn then ⟨.Unauth, some 90⟩
  else if 165 < lg then ⟨.Unauth, some 90⟩
  else if 96 < maxDimIn then ⟨.Oversize, some 90⟩
  else if 130 < lg then ⟨.Oversize, some 90⟩
  else if ((48 < maxDimIn ∨ 30 < secondDimIn) ∨ 105 < lg) ∧ 2268 / 100 < weightKg then
    if scAmounts zone .ahsDim ≤ scAmounts zone .ahsWeight then ⟨.AHSWgt, none⟩
    else ⟨.AHSDim, some 40⟩
  else if (48 < maxDimIn ∨ 30 < secondDimIn) ∨ 105 < lg then ⟨.AHSDim, some 40⟩
  else if 2268 / 100 < weightKg then ⟨.AHSWgt, none⟩
  else ⟨.OK, none⟩

-- ─── calculator.js : billable weight ─────────────────────────────────

/-- JS `calcBillableWeight(actualLb, dimLb, scMinLb)`. -/
def calcBillableWeight (actualLb dimLb : ℚ) (scMinLb : Option ℚ) : ℚ :=
  let base : ℚ := max ((⌈max actualLb dimLb⌉ : ℤ) : ℚ) 1
  match scMinLb with
  | some m => max base m
  | none => base

-- ─── calculator.js : rate lookup ─────────────────────────────────────

/-- A FedEx/Amazon rate table: weight-string key → zone row. A missing
row is `none`; within a row, `entry[zoneKey] || 0` is a total function
defaulting to `0`. `String(·)` is injective on numbers, so the key is
kept as the rational itself. -/
def RateTable : Type := ℚ → Option (ℤ → ℚ)

/-- JS `lookupRate(billableLb, zone, rateTable)`. -/
def lookupRate (billableLb : ℚ) (zone : ℤ) (rateTable : RateTable) : ℚ :=
  if billableLb ≤ MAX_TABLE_LB then
    match rateTable billableLb with
    | none => 0
    | some entry => entry zone
  else
    match rateTable MAX_TABLE_LB with
    | none => 0
    | some entry => entry zone * (billableLb / MAX_TABLE_LB)

-- ─── calculator.js : surcharge amount, residential, DAS ──────────────

/-- JS `getSurchargeAmount(scType, zone, scAmounts)` (the missing-zone check
is absorbed by the total amounts function defaulting to `0`). -/
def getSurchargeAmount (scType : ScType) (zone : ℤ)
    (scAmounts : ℤ → ScKey → ℚ) : ℚ :=
  match scType with
  | .OK => 0
  | .AHSDim => scAmounts zone .ahsDim
  | .AHSWgt => scAmounts zone .ahsWeight
  | .Oversize => scAmounts zone .oversize
  | .Unauth => scAmounts zone .unauthorized

/-- FedEx `surchargeData` (`surcharges.json`): zone-keyed amounts, the
optional residential config and the DAS table. The DAS rows are keyed by
tier name and split residential/commercial (`Bool` = isResidential). -/
structure FedexSurchargeData where
  amounts : ℤ → ScKey → ℚ
  residential : Option ℚ
  das : String → Option (Bool → ℚ)

/-- JS `getResidentialCharge(isResidential, surchargeData)`:
`(surchargeData.residential && surchargeData.residential.charge_per_pkg) || 5.95`. -/
def getResidentialCharge (isResidential : Bool)
    (surchargeData : FedexSurchargeData) : ℚ :=
  if isResidential then
    match surchargeData.residential with
    | some c => jsOr c (595 / 100)
    | none => 595 / 100
  else 0

/-- JS `getDasCharge(dasTier, isResidential, surchargeData)` (a missing whole
DAS table and a missing tier row are both the `none` case). -/
def getDasCharge (dasTier : String) (isResidential : Bool)
    (surchargeData : FedexSurchargeData) : ℚ :=
  if dasTier = "" ∨ dasTier = "None" then 0
  else
    match surchargeData.das dasTier with
    | none => 0
    | some row => row isResidential

-- ─── calculator.js : line item and grand total ───────────────────────

/-- A line item `{ name, L_cm, W_cm, H_cm, weightKg, qty }`. -/
structure Item where
  name : String
  L : ℚ
  W : ℚ
  H : ℚ
  weightKg : ℚ
  qty : ℚ
  deriving DecidableEq, Repr

/-- The FedEx per-line result record of `calcLineItem` (display-only
`scReason` omitted). -/
structure LineResult where
  name : String
  L : ℚ
  W : ℚ
  H : ℚ
  weightKg : ℚ
  qty : ℚ
  actualLb : ℚ
  dimLb : ℚ
  billableLb : ℚ
  baseRate : ℚ
  fuelAmount : ℚ
  rateSubtotal : ℚ
  scType : ScType
  scAmount : ℚ
  residentialCharge : ℚ
  dasCharge : ℚ
  perPkgTotal : ℚ
  lineTotal : ℚ
  deriving DecidableEq, Repr

/-- JS `calcLineItem(item, zone, fuelPct, isResidential, dasTier, rateTable, surchargeData)`. -/
def calcLineItem (item : Item) (zone : ℤ) (fuelPct : ℚ) (isResidential : Bool)
    (dasTier : String) (rateTable : RateTable)
    (surchargeData : FedexSurchargeData) : LineResult :=
  let actualLb := kgToLb item.weightKg
  let dimLb := calcDimWeight item.L item.W item.H
  let sc := determineSurcharge item.L item.W item.H item.weightKg zone surchargeData.amounts
  let billableLb := calcBillableWeight actualLb dimLb sc.minLb
  let baseRate := lookupRate billableLb zone rateTable
  let fuelAmount := baseRate * (fuelPct / 100)
  let rateSubtotal := baseRate + fuelAmount
  let scAmount := getSurchargeAmount sc.scType zone surchargeData.amounts
  let residentialCharge := getResidentialCharge isResidential surchargeData
  let dasCharge := getDasCharge dasTier isResidential surchargeData
  let perPkgTotal := rateSubtotal + scAmount + residentialCharge + dasCharge
  let lineTotal := perPkgTotal * item.qty
  { name := item.name
    L := item.L, W := item.W, H := item.H
    weightKg := item.weightKg, qty := item.qty
    actualLb := round2 actualLb
    dimLb := round2 dimLb
    billableLb := billableLb
    baseRate := round2 baseRate
    fuelAmount := round2 fuelAmount
    rateSubtotal := round2 rateSubtotal
    scType := sc.scType
    scAmount := round2 scAmount
    residentialCharge := round2 residentialCharge
    dasCharge := round2 dasCharge
    perPkgTotal := round2 perPkgTotal
    lineTotal := round2 lineTotal }

/-- The FedEx batch result of `calcAll`. -/
structure BatchResult where
  lines : List LineResult
  grandTotal : ℚ
  rateSubtotal : ℚ
  scSubtotal : ℚ
  residentialSubtotal : ℚ
  dasSubtotal : ℚ
  deriving DecidableEq, Repr

/-- JS `calcAll(items, zone, fuelPct, isResidential, dasTier, rateTable, surchargeData)`:
items with `qty > 0` are kept, mapped to line results, and the
subtotals are reductions over those lines. -/
def calcAll (items : List Item) (zone : ℤ) (fuelPct : ℚ) (isResidential : Bool)
    (dasTier : String) (rateTable : RateTable)
    (surchargeData : FedexSurchargeData) : BatchResult :=
  let lines := (items.filter fun item => 0 < item.qty).map
    fun item => calcLineItem item zone fuelPct isResidential dasTier rateTable surchargeData
  { lines := lines
    grandTotal := round2 ((lines.map fun l => l.lineTotal).sum)
    rateSubtotal := round2 ((lines.map fun l => l.rateSubtotal * l.qty).sum)
    scSubtotal := round2 ((lines.map fun l => l.scAmount * l.qty).sum)
    residentialSubtotal := round2 ((lines.map fun l => l.residentialCharge * l.qty).sum)
    dasSubtotal := round2 ((lines.map fun l => l.dasCharge * l.qty).sum) }

-- ════════════════════════════════════════════════════════════════════
-- amazon-calculator.js
-- ════════════════════════════════════════════════════════════════════

def AMZN_KG_TO_LB : ℚ := 22046 / 10000

def AMZN_MAX_TABLE_LB : ℚ := 150

/-- One `[min, max) → pct` band of `surchargeData.fuel_diesel_table`. -/
structure FuelRow where
  min : ℚ
  max : ℚ
  pct : ℚ
  deriving DecidableEq, Repr

/-- JS `surchargeData.fuel_extension_rule`. -/
structure FuelExt where
  increment_price : ℚ
  increment_pct : ℚ
  deriving DecidableEq, Repr

/-- Keys of the Amazon zone-group surcharge-amount rows. -/
inductive AmznScKey
  | nonStd
  | ahsDim
  | ahsWeight
  | ahsPkg
  | largePkg
  | extraHeavy
  deriving DecidableEq, Repr

/-- The Amazon surcharge `type` strings. -/
inductive AmznScType
  | ExtraHeavy
  | LargePkg
  | AHSWgt
  | AHSDim
  | NonStd
  | OK
  deriving DecidableEq, Repr

/-- Result of `amazonDetermineSurcharge` (display `reason` omitted, as for
FedEx). -/
structure AmznScOut where
  scType : AmznScType
  minLb : Option ℚ
  deriving DecidableEq, Repr

/-- Amazon `surcharges.json`: the zone→group map (`|| '5+'` default kept
as `Option`), the diesel fuel table and extension rule, the group-keyed
amounts, and the flat DAS amounts (`das[tier] || 0` total). -/
structure AmznSurchargeData where
  zone_group_map : ℤ → Option String
  fuel_diesel_table : Option (List FuelRow)
  fuel_extension_rule : Option FuelExt
  amounts : String → Option (AmznScKey → ℚ)
  das : String → ℚ

/-- JS `getAmazonZoneGroup(zone, surchargeData)`: `map[String(zone)] || '5+'`. -/
def getAmazonZoneGroup (zone : ℤ) (surchargeData : AmznSurchargeData) : String :=
  match surchargeData.zone_group_map zone with
  | some g => g
  | none => "5+"

-- ─── amazon-calculator.js : fuel percentage from diesel price ────────

/-- The below-table extension loop of `amazonGetFuelPct`:
`while (price > dieselPrice) { price -= ext.increment_price; pct -= ext.increment_pct; }`.
The JS loop has no intrinsic bound, so it is modelled with explicit fuel;
`none` means the loop did not finish within `fuel` iterations (with
`increment_price ≤ 0` the JS loop never exits). -/
def fuelLoopBelow (target inc incPct : ℚ) : ℕ → ℚ → ℚ → Option ℚ
  | 0, price, pct => if target < price then none else some pct
  | n + 1, price, pct =>
    if target < price then fuelLoopBelow target inc incPct n (price - inc) (pct - incPct)
    else some pct

/-- The above-table extension loop of `amazonGetFuelPct`:
`while (dieselPrice >= price) { price += ext.increment_price; pct += ext.increment_pct; }`,
fuel-indexed like `fuelLoopBelow`. -/
def fuelLoopAbove (target inc incPct : ℚ) : ℕ → ℚ → ℚ → Option ℚ
  | 0, price, pct => if price ≤ target then none else some pct
  | n + 1, price, pct =>
    if price ≤ target then fuelLoopAbove target inc incPct n (price + inc) (pct + incPct)
    else some pct

/-- JS `amazonGetFuelPct(dieselPrice, surchargeData)`. The `for` loop over
the table returning the first `[min, max)` band containing the price is
`List.find?`. The two extension `while` loops carry explicit fuel, so
the result is `Option ℚ` with `none` for a non-terminating loop. On an
empty table with an extension rule the JS dereferences
`table[0].min` of `undefined` and throws; that unreachable-under-use
path is modelled as `some 0`. -/
def amazonGetFuelPct (fuel : ℕ) (dieselPrice : ℚ)
    (surchargeData : AmznSurchargeData) : Option ℚ :=
  match surchargeData.fuel_diesel_table with
  | none => some 0
  | some table =>
    if dieselPrice = 0 then some 0
    else
      match table.find? fun row => decide (row.min ≤ dieselPrice) && decide (dieselPrice < row.max) with
      | some row => some row.pct
      | none =>
        match surchargeData.fuel_extension_rule with
        | none => some 0
        | some ext =>
          match table with
          | [] => some 0
          | firstRow :: rest =>
            let lastRow := (firstRow :: rest).getLast (List.cons_ne_nil _ _)
            if dieselPrice < firstRow.min then
              (fuelLoopBelow dieselPrice ext.increment_price ext.increment_pct
                  fuel firstRow.min firstRow.pct).map
                fun pct => max 0 (round2 pct)
            else
              (fuelLoopAbove dieselPrice ext.increment_price ext.increment_pct
                  fuel lastRow.max (lastRow.pct + ext.increment_pct)).map
                fun pct => round2 (pct - ext.increment_pct)

-- ─── amazon-calculator.js : surcharge determination ──────────────────

/-- JS `amazonDetermineSurcharge(L_cm, W_cm, H_cm, weightKg)`. -/
def amazonDetermineSurcharge (L W H weightKg : ℚ) : AmznScOut :=
  let dims := sort3desc L W H
  let maxDimIn := cmToInchCeil dims.1
  let secondDimIn := cmToInchCeil dims.2.1
  let thirdDimIn := cmToInchCeil dims.2.2
  let girthIn := maxDimIn + 2 * (secondDimIn + thirdDimIn)
  let actualLb := kgToLb weightKg
  if 150 < actualLb then ⟨.ExtraHeavy, none⟩
  else if 165 < girthIn then ⟨.ExtraHeavy, none⟩
  else if 108 < maxDimIn then ⟨.ExtraHeavy, none⟩
  else if 130 < girthIn then ⟨.LargePkg, some 90⟩
  else if 96 < maxDimIn then ⟨.LargePkg, some 90⟩
  else if 50 < actualLb then ⟨.AHSWgt, none⟩
  else if 105 < girthIn then ⟨.AHSDim, none⟩
  else if 47 < maxDimIn then ⟨.AHSDim, none⟩
  else if 42 < secondDimIn then ⟨.AHSDim, none⟩
  else if 37 < maxDimIn then ⟨.NonStd, none⟩
  else if 30 < secondDimIn then ⟨.NonStd, none⟩
  else if 24 < thirdDimIn then ⟨.NonStd, none⟩
  else ⟨.OK, none⟩

/-- JS `amazonGetSurchargeAmount(scType, zone, surchargeData)` (the
`typeMap` renames `AHS-Wgt` to the JSON key `AHS-Weight`; missing group
data is the `none` row; `groupData[k] || 0` is the total row function). -/
def amazonGetSurchargeAmount (scType : AmznScType) (zone : ℤ)
    (surchargeData : AmznSurchargeData) : ℚ :=
  match scType with
  | .OK => 0
  | t =>
    match surchargeData.amounts (getAmazonZoneGroup zone surchargeData) with
    | none => 0
    | some groupData =>
      groupData (match t with
        | .NonStd => .nonStd
        | .AHSDim => .ahsDim
        | .AHSWgt => .ahsWeight
        | .LargePkg => .largePkg
        | .ExtraHeavy => .extraHeavy
        | .OK => .nonStd)

/-- JS `amazonGetDasCharge(dasTier, surchargeData)`. -/
def amazonGetDasCharge (dasTier : String) (surchargeData : AmznSurchargeData) : ℚ :=
  if dasTier = "" ∨ dasTier = "None" then 0
  else surchargeData.das dasTier

/-- JS `amazonLookupRate(billableLb, zone, rateTable)`: clamp to the 150 lb
row (`Math.min`), then exact-row lookup. -/
def amazonLookupRate (billableLb : ℚ) (zone : ℤ) (rateTable : RateTable) : ℚ :=
  match rateTable (min billableLb AMZN_MAX_TABLE_LB) with
  | none => 0
  | some entry => entry zone

-- ─── amazon-calculator.js : line item and grand total ────────────────

/-- The Amazon per-line result record (display `scReason` omitted;
`residentialCharge` is the literal `0` the source returns). -/
structure AmznLineResult where
  name : String
  L : ℚ
  W : ℚ
  H : ℚ
  weightKg : ℚ
  qty : ℚ
  actualLb : ℚ
  dimLb : ℚ
  billableLb : ℚ
  baseRate : ℚ
  fuelPct : ℚ
  fuelAmount : ℚ
  rateSubtotal : ℚ
  scType : AmznScType
  scAmount : ℚ
  residentialCharge : ℚ
  dasCharge : ℚ
  perPkgTotal : ℚ
  lineTotal : ℚ
  deriving DecidableEq, Repr

/-- JS `amazonCalcLineItem(item, zone, dieselPrice, dasTier, rateTable, surchargeData)`;
`none` when the fuel-percentage loop does not finish within `fuel`. -/
def amazonCalcLineItem (fuel : ℕ) (item : Item) (zone : ℤ) (dieselPrice : ℚ)
    (dasTier : String) (rateTable : RateTable)
    (surchargeData : AmznSurchargeData) : Option AmznLineResult :=
  (amazonGetFuelPct fuel dieselPrice surchargeData).map fun fuelPct =>
    let actualLb := kgToLb item.weightKg
    let dimLb := calcDimWeight item.L item.W item.H
    let sc := amazonDetermineSurcharge item.L item.W item.H item.weightKg
    let billableLb := calcBillableWeight actualLb dimLb sc.minLb
    let baseRate := amazonLookupRate billableLb zone rateTable
    let fuelAmount := baseRate * (fuelPct / 100)
    let rateSubtotal := baseRate + fuelAmount
    let scAmount := amazonGetSurchargeAmount sc.scType zone surchargeData
    let dasCharge := amazonGetDasCharge dasTier surchargeData
    let perPkgTotal := rateSubtotal + scAmount + 0 + dasCharge
    let lineTotal := perPkgTotal * item.qty
    { name := item.name
      L := item.L, W := item.W, H := item.H
      weightKg := item.weightKg, qty := item.qty
      actualLb := round2 actualLb
      dimLb := round2 dimLb
      billableLb := billableLb
      baseRate := round2 baseRate
      fuelPct := round2 fuelPct
      fuelAmount := round2 fuelAmount
      rateSubtotal := round2 rateSubtotal
      scType := sc.scType
      scAmount := round2 scAmount
      residentialCharge := 0
      dasCharge := round2 dasCharge
      perPkgTotal := round2 perPkgTotal
      lineTotal := round2 lineTotal }

/-- The Amazon batch result (`residentialSubtotal` is the literal `0`). -/
structure AmznBatchResult where
  lines : List AmznLineResult
  grandTotal : ℚ
  rateSubtotal : ℚ
  scSubtotal : ℚ
  residentialSubtotal : ℚ
  dasSubtotal : ℚ
  deriving DecidableEq, Repr

/-- JS `amazonCalcAll(items, zone, dieselPrice, dasTier, rateTable, surchargeData)`:
the same filter-then-map shape as the FedEx `calcAll`; `none` when the
fuel loop does not finish. -/
def amazonCalcAll (fuel : ℕ) (items : List Item) (zone : ℤ) (dieselPrice : ℚ)
    (dasTier : String) (rateTable : RateTable)
    (surchargeData : AmznSurchargeData) : Option AmznBatchResult :=
  (((items.filter fun item => 0 < item.qty).mapM
      fun item => amazonCalcLineItem fuel item zone dieselPrice dasTier rateTable surchargeData)).map
    fun lines =>
      { lines := lines
        grandTotal := round2 ((lines.map fun l => l.lineTotal).sum)
        rateSubtotal := round2 ((lines.map fun l => l.rateSubtotal * l.qty).sum)
        scSubtotal := round2 ((lines.map fun l => l.scAmount * l.qty).sum)
        residentialSubtotal := 0
        dasSubtotal := round2 ((lines.map fun l => l.dasCharge * l.qty).sum) }

-- ════════════════════════════════════════════════════════════════════
-- yamato-calculator.js
-- ════════════════════════════════════════════════════════════════════

/-- JS `const YAMATO_SIZE_TIERS = [60, 80, 100, 120, 140, 160, 180, 200]`. -/
def YAMATO_SIZE_TIERS : List ℕ := [60, 80, 100, 120, 140, 160, 180, 200]

/-- JS `const YAMATO_WEIGHT_LIMITS = { 60: 2, 80: 5, 100: 10, 120: 15, 140: 20, 160: 25, 180: 30, 200: 30 }`
(only ever indexed with members of `YAMATO_SIZE_TIERS`). -/
def YAMATO_WEIGHT_LIMITS : ℕ → ℚ
  | 60 => 2
  | 80 => 5
  | 100 => 10
  | 120 => 15
  | 140 => 20
  | 160 => 25
  | 180 => 30
  | 200 => 30
  | _ => 0

def YAMATO_MAX_THREE_SIDE_CM : ℚ := 200
def YAMATO_MAX_LONGEST_CM : ℚ := 170
def YAMATO_MAX_WEIGHT_KG : ℚ := 30

/-- JS `yamatoSizeTierFromSum(sumCm)`: first tier whose value covers the
three-side sum, `null` past 200 cm. -/
def yamatoSizeTierFromSum (sumCm : ℚ) : Option ℕ :=
  YAMATO_SIZE_TIERS.find? fun tier => decide (sumCm ≤ (tier : ℚ))

/-- JS `yamatoSizeTierFromWeight(weightKg)`: first tier whose weight limit
covers the weight, `null` past 30 kg. -/
def yamatoSizeTierFromWeight (weightKg : ℚ) : Option ℕ :=
  YAMATO_SIZE_TIERS.find? fun tier => decide (weightKg ≤ YAMATO_WEIGHT_LIMITS tier)

/-- Which hard-limit error message `yamatoCalcSize` produced; each tag is
a distinct human-readable reason string in the source (longest side over
170 cm, three-side sum over 200 cm, weight over 30 kg, and the generic
tier-lookup failure `サイズ超過`). -/
inductive YamatoErr
  | longest
  | threeSideSum
  | weight
  | tier
  deriving DecidableEq, Repr

/-- The `sizeSource` strings of `yamatoCalcSize`. -/
inductive SizeSource
  | sum
  | weight
  deriving DecidableEq, Repr

/-- Result of `yamatoCalcSize`: either an error record (raw sum and
longest side) or the size record (sum and longest rounded to 1 decimal,
both tiers, applied size and its source). -/
inductive YamatoSize
  | err (reason : YamatoErr) (threeSideSum longest : ℚ)
  | ok (threeSideSum longest : ℚ) (sumTier weightTier appliedSize : ℕ)
      (sizeSource : SizeSource)
  deriving DecidableEq, Repr

/-- JS `yamatoCalcSize(L_cm, W_cm, H_cm, weightKg)`. `dims[0]` of the
descending sort is the longest side; `appliedSize = Math.max(sumTier, weightTier)`
and `sizeSource = sumTier >= weightTier ? 'sum' : 'weight'`. -/
def yamatoCalcSize (L W H weightKg : ℚ) : YamatoSize :=
  let longest := (sort3desc L W H).1
  let threeSideSum := L + W + H
  if YAMATO_MAX_LONGEST_CM < longest then .err .longest threeSideSum longest
  else if YAMATO_MAX_THREE_SIDE_CM < threeSideSum then .err .threeSideSum threeSideSum longest
  else if YAMATO_MAX_WEIGHT_KG < weightKg then .err .weight threeSideSum longest
  else
    match yamatoSizeTierFromSum threeSideSum, yamatoSizeTierFromWeight weightKg with
    | some sumTier, some weightTier =>
      .ok (round1 threeSideSum) (round1 longest) sumTier weightTier
        (max sumTier weightTier)
        (if weightTier ≤ sumTier then .sum else .weight)
    | _, _ => .err .tier threeSideSum longest

-- ─── yamato-calculator.js : rate lookup ──────────────────────────────

/-- JS `'cash' | 'cashless'` (the source only tests `payment === 'cash'`). -/
inductive Payment
  | cash
  | cashless
  deriving DecidableEq, Repr

/-- The Yamato rate tables. `ratesCash`/`ratesCashless` are
origin → size → destination → rate; `ratesIntrapref` is
payment → size → rate. A `none` at any level is a missing key. -/
structure YamatoRateTables where
  ratesCash : String → Option (ℕ → Option (String → Option ℚ))
  ratesCashless : String → Option (ℕ → Option (String → Option ℚ))
  ratesIntrapref : Payment → ℕ → Option ℚ

/-- JS `yamatoLookupRate(origin, destination, appliedSize, payment, ...)`,
returning `{ rate, isIntrapref }`. -/
def yamatoLookupRate (origin destination : String) (appliedSize : ℕ)
    (payment : Payment) (tables : YamatoRateTables)
    (samePrefecture : Bool) : ℚ × Bool :=
  let fallback :=
    let rates := match payment with
      | .cash => tables.ratesCash
      | .cashless => tables.ratesCashless
    match rates origin with
    | none => ((0 : ℚ), false)
    | some originRates =>
      match originRates appliedSize with
      | none => ((0 : ℚ), false)
      | some sizeRates =>
        match sizeRates destination with
        | none => ((0 : ℚ), false)
        | some rate => (rate, false)
  if samePrefecture ∧ origin ≠ "okinawa" then
    match tables.ratesIntrapref payment appliedSize with
    | some rate => (rate, true)
    | none => fallback
  else fallback

-- ─── yamato-calculator.js : surcharges and discounts ─────────────────

/-- JS `'none' | 'chilled' | 'frozen'` (the source only tests falsy /
`'none'`). -/
inductive CoolType
  | none
  | chilled
  | frozen
  deriving DecidableEq, Repr

/-- Yamato `surcharges.json`: the cool table (size-keyed, `|| 0` total)
and the same-day fees (each read with `|| 550` / `|| 330` defaults via
`jsOr`). -/
structure YamatoSurcharges where
  cool : Option (ℕ → ℚ)
  same_day : Option (ℚ × ℚ)

/-- JS `yamatoGetCoolSurcharge(appliedSize, coolType, surcharges)`:
`some amount` normally, `none` for the JS `null` marking cool service on
a size above 120. -/
def yamatoGetCoolSurcharge (appliedSize : ℕ) (coolType : CoolType)
    (surcharges : YamatoSurcharges) : Option ℚ :=
  if coolType = .none then some 0
  else if 120 < appliedSize then none
  else
    match surcharges.cool with
    | Option.none => some 0
    | some coolData => some (coolData appliedSize)

/-- JS `yamatoGetSameDaySurcharge(sameDay, origin, destination, surcharges)`;
the pair is `(standard, okinawa)`. -/
def yamatoGetSameDaySurcharge (sameDay : Bool) (origin destination : String)
    (surcharges : YamatoSurcharges) : ℚ :=
  if !sameDay then 0
  else
    match surcharges.same_day with
    | Option.none => 550
    | some sd =>
      if origin = "okinawa" ∨ destination = "okinawa" then jsOr sd.2 330
      else jsOr sd.1 550

/-- JS `yamatoCalcDiscounts(selectedDiscounts, discountDefs)`: sums the
defined amounts (negative numbers), skipping `'dropoff'` when
`'member_dropoff'` is also selected; the `applied` list keeps key and
amount (the display name is omitted). -/
def yamatoCalcDiscounts (selectedDiscounts : List String)
    (discountDefs : String → Option ℚ) : ℚ × List (String × ℚ) :=
  let hasMemberDropoff := selectedDiscounts.contains "member_dropoff"
  selectedDiscounts.foldl
    (fun acc key =>
      if key = "dropoff" ∧ hasMemberDropoff then acc
      else
        match discountDefs key with
        | some amount => (acc.1 + amount, acc.2 ++ [(key, amount)])
        | none => acc)
    (0, [])

-- ─── yamato-calculator.js : line item and grand total ────────────────

/-- The Yamato per-line result. The error-branch return object of the
source has no `sumTier`/`weightTier`/`sizeSource`/`coolError` fields
(reading them yields `undefined`, falsy); they are modelled as
`none`/`false` there, and `errorReason` is `none` on the success branch. -/
structure YamatoLine where
  name : String
  L : ℚ
  W : ℚ
  H : ℚ
  weightKg : ℚ
  qty : ℚ
  error : Bool
  errorReason : Option YamatoErr
  threeSideSum : ℚ
  longest : ℚ
  sumTier : Option ℕ
  weightTier : Option ℕ
  appliedSize : Option ℕ
  sizeSource : Option SizeSource
  baseRate : ℚ
  isIntrapref : Bool
  coolSurcharge : ℚ
  coolError : Bool
  sameDaySurcharge : ℚ
  discountTotal : ℚ
  discountDetails : List (String × ℚ)
  perPkgTotal : ℚ
  lineTotal : ℚ
  deriving DecidableEq, Repr

/-- JS `yamatoCalcLineItem(item, origin, destination, payment, samePrefecture,
coolType, sameDay, selectedDiscounts, ratesCash, ratesCashless,
ratesIntrapref, surcharges, discounts)`. -/
def yamatoCalcLineItem (item : Item) (origin destination : String)
    (payment : Payment) (samePrefecture : Bool) (coolType : CoolType)
    (sameDay : Bool) (selectedDiscounts : List String)
    (tables : YamatoRateTables) (surcharges : YamatoSurcharges)
    (discounts : String → Option ℚ) : YamatoLine :=
  match yamatoCalcSize item.L item.W item.H item.weightKg with
  | .err reason threeSideSum longest =>
    { name := item.name
      L := item.L, W := item.W, H := item.H
      weightKg := item.weightKg, qty := item.qty
      error := true
      errorReason := some reason
      threeSideSum := threeSideSum
      longest := longest
      sumTier := none, weightTier := none
      appliedSize := none, sizeSource := none
      baseRate := 0
      isIntrapref := false
      coolSurcharge := 0
      coolError := false
      sameDaySurcharge := 0
      discountTotal := 0
      discountDetails := []
      perPkgTotal := 0
      lineTotal := 0 }
  | .ok threeSideSum longest sumTier weightTier appliedSize sizeSource =>
    let rateResult := yamatoLookupRate origin destination appliedSize payment
      tables samePrefecture
    let coolSurcharge := yamatoGetCoolSurcharge appliedSize coolType surcharges
    let coolError := coolSurcharge = Option.none
    let coolAmount := match coolSurcharge with
      | some amount => amount
      | Option.none => 0
    let sameDaySurcharge := yamatoGetSameDaySurcharge sameDay origin destination surcharges
    let discountCalc := yamatoCalcDiscounts selectedDiscounts discounts
    let perPkgTotal := max 0 (rateResult.1 + coolAmount + sameDaySurcharge + discountCalc.1)
    let lineTotal := perPkgTotal * item.qty
    { name := item.name
      L := item.L, W := item.W, H := item.H
      weightKg := item.weightKg, qty := item.qty
      error := false
      errorReason := none
      threeSideSum := threeSideSum
      longest := longest
      sumTier := some sumTier, weightTier := some weightTier
      appliedSize := some appliedSize, sizeSource := some sizeSource
      baseRate := rateResult.1
      isIntrapref := rateResult.2
      coolSurcharge := coolAmount
      coolError := decide coolError
      sameDaySurcharge := sameDaySurcharge
      discountTotal := discountCalc.1
      discountDetails := discountCalc.2
      perPkgTotal := perPkgTotal
      lineTotal := lineTotal }

/-- The Yamato batch result (JPY values are not rounded in the source). -/
structure YamatoBatchResult where
  lines : List YamatoLine
  grandTotal : ℚ
  baseSubtotal : ℚ
  coolSubtotal : ℚ
  sameDaySubtotal : ℚ
  discountSubtotal : ℚ
  deriving DecidableEq, Repr

/-- JS `yamatoCalcAll(items, ...)`: the same filter-then-map shape as the
other two engines. -/
def yamatoCalcAll (items : List Item) (origin destination : String)
    (payment : Payment) (samePrefecture : Bool) (coolType : CoolType)
    (sameDay : Bool) (selectedDiscounts : List String)
    (tables : YamatoRateTables) (surcharges : YamatoSurcharges)
    (discounts : String → Option ℚ) : YamatoBatchResult :=
  let lines := (items.filter fun item => 0 < item.qty).map
    fun item => yamatoCalcLineItem item origin destination payment samePrefecture
      coolType sameDay selectedDiscounts tables surcharges discounts
  { lines := lines
    grandTotal := (lines.map fun l => l.lineTotal).sum
    baseSubtotal := (lines.map fun l => l.baseRate * l.qty).sum
    coolSubtotal := (lines.map fun l => l.coolSurcharge * l.qty).sum
    sameDaySubtotal := (lines.map fun l => l.sameDaySurcharge * l.qty).sum
    discountSubtotal := (lines.map fun l => l.discountTotal * l.qty).sum }

-- ════════════════════════════════════════════════════════════════════
-- Helper lemmas
-- ════════════════════════════════════════════════════════════════════

/-- Evaluation helper: ceiling through the floor, whose value `norm_num`
can compute on rational literals. -/
theorem ceil_eq_neg_floor_neg (q : ℚ) : ⌈q⌉ = -⌊-q⌋ := by
  rw [Int.floor_neg, neg_neg]

/-- Swapping the first two sides does not change the descending sort. -/
theorem sort3desc_swap_left (a b c : ℚ) : sort3desc b a c = sort3desc a b c := by
  simp only [sort3desc, Prod.mk.injEq]
  refine ⟨max_left_comm b a c, ?_, min_left_comm b a c⟩
  rw [max_left_comm b a c, min_left_comm b a c]; ring

/-- Swapping the last two sides does not change the descending sort. -/
theorem sort3desc_swap_right (a b c : ℚ) : sort3desc a c b = sort3desc a b c := by
  simp only [sort3desc, Prod.mk.injEq]
  refine ⟨by rw [max_comm c b], ?_, by rw [min_comm c b]⟩
  rw [max_comm c b, min_comm c b]; ring

/-- Rotating the three sides does not change the descending sort. -/
theorem sort3desc_rot (a b c : ℚ) : sort3desc b c a = sort3desc a b c := by
  simp only [sort3desc, Prod.mk.injEq]
  refine ⟨?_, ?_, ?_⟩
  · rw [max_comm c a, max_left_comm b a c]
  · rw [max_comm c a, max_left_comm b a c, min_comm c a, min_left_comm b a c]; ring
  · rw [min_comm c a, min_left_comm b a c]

-- ════════════════════════════════════════════════════════════════════
-- Claim C1
-- ════════════════════════════════════════════════════════════════════

/-- Claim C1, counterexample: the claim says `determineSurcharge` returns
`Unauth` only if the actual weight exceeds 150 lb or a dimensional limit
is hit, but the source tests `weightKg > 68` (68 kg ≈ 149.91 lb). A
1×1×1 cm package of 68.02 kg weighs ≈149.96 lb ≤ 150 lb and breaks no
dimensional limit, yet is classified `Unauth`. -/
theorem claim_C1_cex :
    (determineSurcharge 1 1 1 (6802 / 100) 2 fun _ _ => 0).scType = ScType.Unauth ∧
    kgToLb (6802 / 100) ≤ 150 ∧
    cmToInchCeil (sort3desc 1 1 1).1 ≤ 108 ∧
    lengthGirthIn 1 1 1 ≤ 165 := by
  refine ⟨?_, by norm_num [kgToLb, KG_TO_LB], ?_, ?_⟩
  · norm_num [determineSurcharge, sort3desc, cmToInchCeil, ceil_eq_neg_floor_neg]
  · norm_num [sort3desc, cmToInchCeil, ceil_eq_neg_floor_neg]
  · norm_num [lengthGirthIn, sort3desc, cmToInchCeil, ceil_eq_neg_floor_neg]

/-- Claim C1 (amended): `determineSurcharge` returns type `Unauth` if and
only if the weight exceeds 68 kg (the source's metric stand-in for the
150 lb limit, ≈149.91 lb), or the longest side in ceiled inches exceeds
108, or length+girth in ceiled inches exceeds 165; and a 70 kg item is
classified `Unauth` with a 90 lb minimum billable weight regardless of
its dimensions. -/
theorem claim_C1 (L W H weightKg : ℚ) (zone : ℤ) (scAmounts : ℤ → ScKey → ℚ) :
    ((determineSurcharge L W H weightKg zone scAmounts).scType = ScType.Unauth ↔
      68 < weightKg ∨ 108 < cmToInchCeil (sort3desc L W H).1 ∨ 165 < lengthGirthIn L W H) ∧
    determineSurcharge L W H 70 zone scAmounts = ⟨.Unauth, some 90⟩ := by
  constructor
  · simp only [determineSurcharge, lengthGirthIn]
    split_ifs <;> simp_all
  · simp only [determineSurcharge]
    norm_num

-- ════════════════════════════════════════════════════════════════════
-- Claim C3
-- ════════════════════════════════════════════════════════════════════

/-- Claim C3: for billable weights above 150 lb the FedEx rate is the
150 lb rate of the zone scaled by `w / 150` (this also holds when the
150 lb row is missing, both sides being zero), and for billable weights
at most 150 lb the result is exactly the weight row's entry for the
zone. -/
theorem claim_C3 (w : ℚ) (zone : ℤ) (rateTable : RateTable) :
    (MAX_TABLE_LB < w →
      lookupRate w zone rateTable = lookupRate MAX_TABLE_LB zone rateTable * (w / MAX_TABLE_LB)) ∧
    (∀ entry, w ≤ MAX_TABLE_LB → rateTable w = some entry →
      lookupRate w zone rateTable = entry zone) := by
  constructor
  · intro hw
    unfold lookupRate
    rw [if_neg (not_le.mpr hw), if_pos le_rfl]
    cases h : rateTable MAX_TABLE_LB <;> simp
  · intro entry hw hentry
    unfold lookupRate
    rw [if_pos hw, hentry]

/-- Helper rate table for the claim C3 witness: a 150 lb row valued 7 and
a 3 lb row valued 5 in every zone. -/
def rateTableC3 : RateTable := fun w =>
  if w = 150 then some fun _ => 7 else if w = 3 then some fun _ => 5 else none

/-- Claim C3, witness: scaling at 300 lb and exact lookup at 3 lb on a
concrete table. -/
theorem claim_C3_witness :
    lookupRate 300 2 rateTableC3 = lookupRate 150 2 rateTableC3 * (300 / 150) ∧
    lookupRate 3 2 rateTableC3 = 5 := by
  constructor
  · exact (claim_C3 300 2 rateTableC3).1 (by norm_num [MAX_TABLE_LB])
  · exact (claim_C3 3 2 rateTableC3).2 (fun _ => 5) (by norm_num [MAX_TABLE_LB])
      (by norm_num [rateTableC3])

-- ════════════════════════════════════════════════════════════════════
-- Claim C4
-- ════════════════════════════════════════════════════════════════════

/-- Claim C4: when both the AHS dimensional condition and the AHS weight
condition hold and neither Unauthorized nor Oversize applies,
`determineSurcharge` compares the zone's dollar amounts for `AHS-Dim`
and `AHS-Weight` and returns the costlier type, the weight-based type on
a tie, with minimum billable weight 40 lb when the dimensional type wins
and none when the weight type wins. -/
theorem claim_C4 (L W H w : ℚ) (zone : ℤ) (scAmounts : ℤ → ScKey → ℚ)
    (hw : w ≤ 68)
    (hmax : cmToInchCeil (sort3desc L W H).1 ≤ 96)
    (hlg : lengthGirthIn L W H ≤ 130)
    (hdim : 48 < cmToInchCeil (sort3desc L W H).1 ∨ 30 < cmToInchCeil (sort3desc L W H).2.1 ∨
      105 < lengthGirthIn L W H)
    (hwgt : 2268 / 100 < w) :
    determineSurcharge L W H w zone scAmounts =
      if scAmounts zone .ahsDim ≤ scAmounts zone .ahsWeight then ⟨.AHSWgt, none⟩
      else ⟨.AHSDim, some 40⟩ := by
  simp only [lengthGirthIn] at hlg hdim
  simp only [determineSurcharge]
  rw [if_neg (not_lt.mpr hw), if_neg (by omega), if_neg (by omega), if_neg (by omega),
    if_neg (by omega), if_pos ⟨by tauto, hwgt⟩]

/-- Helper amounts table for the claim C4 witness: `AHS-Dim` costs 5 and
`AHS-Weight` costs 3 in every zone. -/
def scAmountsC4 : ℤ → ScKey → ℚ := fun _ k =>
  match k with
  | .ahsDim => 5
  | .ahsWeight => 3
  | _ => 0

/-- Claim C4, witness: a 130×10×10 cm, 23 kg package (both AHS
conditions, no Oversize/Unauthorized) where the dimensional amount wins,
giving `AHS-Dim` with the 40 lb floor. -/
theorem claim_C4_witness :
    (2268 / 100 : ℚ) < 23 ∧
    determineSurcharge 130 10 10 23 2 scAmountsC4 = ⟨.AHSDim, some 40⟩ := by
  have h := claim_C4 130 10 10 23 2 scAmountsC4 (by norm_num)
    (by norm_num [sort3desc, cmToInchCeil, ceil_eq_neg_floor_neg, max_def, min_def])
    (by norm_num [lengthGirthIn, sort3desc, cmToInchCeil, ceil_eq_neg_floor_neg, max_def, min_def])
    (Or.inl (by norm_num [sort3desc, cmToInchCeil, ceil_eq_neg_floor_neg, max_def, min_def]))
    (by norm_num)
  refine ⟨by norm_num, ?_⟩
  rw [h]
  norm_num [scAmountsC4]

-- ════════════════════════════════════════════════════════════════════
-- Claim C2
-- ════════════════════════════════════════════════════════════════════

/-- Helper: an empty FedEx/Amazon rate table. -/
def rtEmpty : RateTable := fun _ => none

/-- Helper: FedEx surcharge data with zero amounts and no residential or
DAS configuration. -/
def fsdEmpty : FedexSurchargeData := ⟨fun _ _ => 0, none, fun _ => none⟩

/-- Helper: Amazon surcharge data with no tables. -/
def amznSdEmpty : AmznSurchargeData := ⟨fun _ => none, none, none, fun _ => none, fun _ => 0⟩

/-- Helper: empty Yamato rate tables. -/
def ytablesEmpty : YamatoRateTables := ⟨fun _ => none, fun _ => none, fun _ _ => none⟩

/-- Helper: empty Yamato surcharge tables. -/
def ysurchEmpty : YamatoSurcharges := ⟨none, none⟩

/-- Claim C2, counterexample: a batch consisting of one quantity-0 item
produces an *empty* per-line results list from all three engines — the
item does not appear as an entry, contrary to the claim (all three
`calcAll` functions filter `qty > 0` before mapping). -/
theorem claim_C2_cex :
    (calcAll [⟨"z", 1, 1, 1, 1, 0⟩] 2 0 false "None" rtEmpty fsdEmpty).lines = [] ∧
    amazonCalcAll 0 [⟨"z", 1, 1, 1, 1, 0⟩] 2 0 "None" rtEmpty amznSdEmpty =
      some ⟨[], 0, 0, 0, 0, 0⟩ ∧
    (yamatoCalcAll [⟨"z", 1, 1, 1, 1, 0⟩] "kanto" "kansai" .cash false .none false []
      ytablesEmpty ysurchEmpty fun _ => none).lines = [] := by
  refine ⟨?_, ?_, ?_⟩ <;>
    norm_num [calcAll, amazonCalcAll, yamatoCalcAll, amazonGetFuelPct, amznSdEmpty,
      round2, List.filter, List.mapM, List.mapM.loop]

/-- Claim C2 (amended): a quantity-0 line item contributes nothing to the
grand total or any per-category subtotal of `calcAll`, `amazonCalcAll`
and `yamatoCalcAll`, because all three filter it out before computing
per-line results — inserting it anywhere in the batch leaves the entire
result (lines list included) unchanged; contrary to the original claim
it does not appear as an entry in the returned per-line results list
(displaying quantity-0 rows is the UI layer's concern). -/
theorem claim_C2 (item : Item) (hqty : item.qty = 0) (xs ys : List Item)
    (zone : ℤ) (fuelPct : ℚ) (isResidential : Bool) (dasTier : String)
    (rateTable : RateTable) (fsd : FedexSurchargeData)
    (fuel : ℕ) (dieselPrice : ℚ) (amznDasTier : String) (amznRateTable : RateTable)
    (asd : AmznSurchargeData)
    (origin destination : String) (payment : Payment) (samePrefecture : Bool)
    (coolType : CoolType) (sameDay : Bool) (selectedDiscounts : List String)
    (tables : YamatoRateTables) (ysurch : YamatoSurcharges)
    (discounts : String → Option ℚ) :
    calcAll (xs ++ item :: ys) zone fuelPct isResidential dasTier rateTable fsd =
      calcAll (xs ++ ys) zone fuelPct isResidential dasTier rateTable fsd ∧
    amazonCalcAll fuel (xs ++ item :: ys) zone dieselPrice amznDasTier amznRateTable asd =
      amazonCalcAll fuel (xs ++ ys) zone dieselPrice amznDasTier amznRateTable asd ∧
    yamatoCalcAll (xs ++ item :: ys) origin destination payment samePrefecture coolType
        sameDay selectedDiscounts tables ysurch discounts =
      yamatoCalcAll (xs ++ ys) origin destination payment samePrefecture coolType
        sameDay selectedDiscounts tables ysurch discounts := by
  have hfilter : ∀ l1 l2 : List Item,
      (l1 ++ item :: l2).filter (fun i => decide (0 < i.qty)) =
      (l1 ++ l2).filter fun i => decide (0 < i.qty) := by
    intro l1 l2
    simp [List.filter_append, List.filter_cons, hqty]
  refine ⟨?_, ?_, ?_⟩ <;> simp only [calcAll, amazonCalcAll, yamatoCalcAll, hfilter]

/-- Claim C2, witness: the amended statement applied to a concrete
quantity-0 item inserted in front of a quantity-1 item. -/
theorem claim_C2_witness :
    (⟨"zero", 10, 10, 10, 5, 0⟩ : Item).qty = 0 ∧
    calcAll ([] ++ ⟨"zero", 10, 10, 10, 5, 0⟩ :: [⟨"one", 1, 1, 1, 1, 1⟩]) 2 0 false "None"
        rtEmpty fsdEmpty =
      calcAll ([] ++ [⟨"one", 1, 1, 1, 1, 1⟩]) 2 0 false "None" rtEmpty fsdEmpty ∧
    amazonCalcAll 5 ([] ++ ⟨"zero", 10, 10, 10, 5, 0⟩ :: [⟨"one", 1, 1, 1, 1, 1⟩]) 2 3 "None"
        rtEmpty amznSdEmpty =
      amazonCalcAll 5 ([] ++ [⟨"one", 1, 1, 1, 1, 1⟩]) 2 3 "None" rtEmpty amznSdEmpty ∧
    yamatoCalcAll ([] ++ ⟨"zero", 10, 10, 10, 5, 0⟩ :: [⟨"one", 1, 1, 1, 1, 1⟩]) "kanto"
        "kansai" .cash false .none false [] ytablesEmpty ysurchEmpty (fun _ => none) =
      yamatoCalcAll ([] ++ [⟨"one", 1, 1, 1, 1, 1⟩]) "kanto" "kansai" .cash false .none
        false [] ytablesEmpty ysurchEmpty fun _ => none :=
  ⟨rfl, claim_C2 ⟨"zero", 10, 10, 10, 5, 0⟩ rfl [] [⟨"one", 1, 1, 1, 1, 1⟩] 2 0 false "None"
    rtEmpty fsdEmpty 5 3 "None" rtEmpty amznSdEmpty "kanto" "kansai" .cash false .none false
    [] ytablesEmpty ysurchEmpty fun _ => none⟩

-- ════════════════════════════════════════════════════════════════════
-- Claim C8
-- ════════════════════════════════════════════════════════════════════

/-- Helper: the FedEx/Amazon length+girth depends on the sides only
through the descending sort. -/
theorem lengthGirthIn_congr (a b c d e f : ℚ) (h : sort3desc a b c = sort3desc d e f) :
    lengthGirthIn a b c = lengthGirthIn d e f := by
  unfold lengthGirthIn; rw [h]

/-- Helper: the FedEx classifier depends on the sides only through the
descending sort. -/
theorem determineSurcharge_congr (a b c d e f w : ℚ) (zone : ℤ) (sc : ℤ → ScKey → ℚ)
    (h : sort3desc a b c = sort3desc d e f) :
    determineSurcharge a b c w zone sc = determineSurcharge d e f w zone sc := by
  unfold determineSurcharge; rw [h]

/-- Helper: the Amazon classifier depends on the sides only through the
descending sort. -/
theorem amazonDetermineSurcharge_congr (a b c d e f w : ℚ)
    (h : sort3desc a b c = sort3desc d e f) :
    amazonDetermineSurcharge a b c w = amazonDetermineSurcharge d e f w := by
  unfold amazonDetermineSurcharge; rw [h]

/-- Helper: the Yamato size classifier depends on the sides only through
the descending sort and the raw three-side sum. -/
theorem yamatoCalcSize_congr (a b c d e f w : ℚ)
    (h : sort3desc a b c = sort3desc d e f) (hsum : a + b + c = d + e + f) :
    yamatoCalcSize a b c w = yamatoCalcSize d e f w := by
  unfold yamatoCalcSize; rw [h, hsum]

/-- All six orderings of a dimension triple. -/
def permsOf (a b c : ℚ) : List (ℚ × ℚ × ℚ) :=
  [(a, b, c), (a, c, b), (b, a, c), (b, c, a), (c, a, b), (c, b, a)]

/-- Claim C8: for every dimension triple and every permutation of it, the
computed length+girth, the three-side sum, and the classification
outcomes of `determineSurcharge`, `amazonDetermineSurcharge` and
`yamatoCalcSize` are identical. -/
theorem claim_C8 (a b c w : ℚ) (zone : ℤ) (sc : ℤ → ScKey → ℚ) (t : ℚ × ℚ × ℚ)
    (ht : t ∈ permsOf a b c) :
    lengthGirthIn t.1 t.2.1 t.2.2 = lengthGirthIn a b c ∧
    t.1 + t.2.1 + t.2.2 = a + b + c ∧
    determineSurcharge t.1 t.2.1 t.2.2 w zone sc = determineSurcharge a b c w zone sc ∧
    amazonDetermineSurcharge t.1 t.2.1 t.2.2 w = amazonDetermineSurcharge a b c w ∧
    yamatoCalcSize t.1 t.2.1 t.2.2 w = yamatoCalcSize a b c w := by
  have hmain : sort3desc t.1 t.2.1 t.2.2 = sort3desc a b c ∧
      t.1 + t.2.1 + t.2.2 = a + b + c := by
    simp only [permsOf, List.mem_cons, List.not_mem_nil, or_false] at ht
    rcases ht with rfl | rfl | rfl | rfl | rfl | rfl
    · exact ⟨rfl, rfl⟩
    · exact ⟨sort3desc_swap_right a b c, by ring⟩
    · exact ⟨sort3desc_swap_left a b c, by ring⟩
    · exact ⟨sort3desc_rot a b c, by ring⟩
    · exact ⟨(sort3desc_rot b c a).trans (sort3desc_rot a b c), by ring⟩
    · exact ⟨(sort3desc_swap_left b c a).trans (sort3desc_rot a b c), by ring⟩
  exact ⟨lengthGirthIn_congr _ _ _ _ _ _ hmain.1, hmain.2,
    determineSurcharge_congr _ _ _ _ _ _ _ _ _ hmain.1,
    amazonDetermineSurcharge_congr _ _ _ _ _ _ _ hmain.1,
    yamatoCalcSize_congr _ _ _ _ _ _ _ hmain.1 hmain.2⟩

/-- Claim C8, witness: the permutation (3, 1, 2) of (1, 2, 3) gives the
same girth, sum and classifications. -/
theorem claim_C8_witness :
    ((3 : ℚ), (1 : ℚ), (2 : ℚ)) ∈ permsOf 1 2 3 ∧
    lengthGirthIn 3 1 2 = lengthGirthIn 1 2 3 ∧
    (3 : ℚ) + 1 + 2 = 1 + 2 + 3 ∧
    determineSurcharge 3 1 2 1 2 (fun _ _ => 0) = determineSurcharge 1 2 3 1 2 (fun _ _ => 0) ∧
    amazonDetermineSurcharge 3 1 2 1 = amazonDetermineSurcharge 1 2 3 1 ∧
    yamatoCalcSize 3 1 2 1 = yamatoCalcSize 1 2 3 1 := by
  have hmem : ((3 : ℚ), (1 : ℚ), (2 : ℚ)) ∈ permsOf 1 2 3 := by norm_num [permsOf]
  exact ⟨hmem, claim_C8 1 2 3 1 2 (fun _ _ => 0) (3, 1, 2) hmem⟩

-- ════════════════════════════════════════════════════════════════════
-- Claim C5
-- ════════════════════════════════════════════════════════════════════

/-- Helper: on a list sorted ascending, `find?` returns a least element
among those satisfying the predicate. -/
theorem find?_least {p : ℕ → Bool} :
    ∀ l : List ℕ, l.Sorted (· ≤ ·) → ∀ x, l.find? p = some x →
      p x = true ∧ x ∈ l ∧ ∀ y ∈ l, p y = true → x ≤ y := by
  intro l
  induction l with
  | nil => intro _ x hx; simp at hx
  | cons a t ih =>
    intro hs x hfind
    rw [List.find?_cons] at hfind
    by_cases hpa : p a = true
    · rw [hpa] at hfind
      cases hfind
      refine ⟨hpa, List.mem_cons_self a t, ?_⟩
      intro y hy _
      rcases List.mem_cons.mp hy with rfl | hyt
      · exact le_rfl
      · exact (List.sorted_cons.mp hs).1 y hyt
    · rw [Bool.not_eq_true] at hpa
      rw [hpa] at hfind
      obtain ⟨h1, h2, h3⟩ := ih (List.sorted_cons.mp hs).2 x hfind
      refine ⟨h1, List.mem_cons_of_mem a h2, ?_⟩
      intro y hy hpy
      rcases List.mem_cons.mp hy with rfl | hyt
      · rw [hpa] at hpy; cases hpy
      · exact h3 y hyt hpy

/-- Claim C5: within the hard limits, `yamatoCalcSize` succeeds; its
`sumTier` is the smallest tier whose value covers the three-side sum,
its `weightTier` is the smallest tier whose weight ceiling covers the
weight, the applied size is the maximum of the two, and `sizeSource` is
`sum` exactly when `sumTier ≥ weightTier`. -/
theorem claim_C5 (L W H w : ℚ)
    (hlong : (sort3desc L W H).1 ≤ YAMATO_MAX_LONGEST_CM)
    (hsum : L + W + H ≤ YAMATO_MAX_THREE_SIDE_CM)
    (hw : w ≤ YAMATO_MAX_WEIGHT_KG) :
    ∃ sumTier weightTier,
      yamatoSizeTierFromSum (L + W + H) = some sumTier ∧
      yamatoSizeTierFromWeight w = some weightTier ∧
      sumTier ∈ YAMATO_SIZE_TIERS ∧ L + W + H ≤ (sumTier : ℚ) ∧
      (∀ t ∈ YAMATO_SIZE_TIERS, L + W + H ≤ (t : ℚ) → sumTier ≤ t) ∧
      weightTier ∈ YAMATO_SIZE_TIERS ∧ w ≤ YAMATO_WEIGHT_LIMITS weightTier ∧
      (∀ t ∈ YAMATO_SIZE_TIERS, w ≤ YAMATO_WEIGHT_LIMITS t → weightTier ≤ t) ∧
      yamatoCalcSize L W H w =
        .ok (round1 (L + W + H)) (round1 (sort3desc L W H).1) sumTier weightTier
          (max sumTier weightTier)
          (if weightTier ≤ sumTier then .sum else .weight) := by
  have hsorted : YAMATO_SIZE_TIERS.Sorted (· ≤ ·) := by decide
  obtain ⟨st, hst⟩ : ∃ st, yamatoSizeTierFromSum (L + W + H) = some st := by
    cases hf : yamatoSizeTierFromSum (L + W + H) with
    | some st => exact ⟨st, rfl⟩
    | none =>
      unfold yamatoSizeTierFromSum at hf
      rw [List.find?_eq_none] at hf
      have h200 := hf 200 (by decide)
      simp only [decide_eq_true_iff] at h200
      exfalso; apply h200; push_cast
      unfold YAMATO_MAX_THREE_SIDE_CM at hsum; linarith
  obtain ⟨wt, hwt⟩ : ∃ wt, yamatoSizeTierFromWeight w = some wt := by
    cases hf : yamatoSizeTierFromWeight w with
    | some wt => exact ⟨wt, rfl⟩
    | none =>
      unfold yamatoSizeTierFromWeight at hf
      rw [List.find?_eq_none] at hf
      have h180 := hf 180 (by decide)
      simp only [decide_eq_true_iff] at h180
      exfalso; apply h180
      unfold YAMATO_WEIGHT_LIMITS
      unfold YAMATO_MAX_WEIGHT_KG at hw
      exact hw
  obtain ⟨hp1, hmem1, hleast1⟩ := find?_least YAMATO_SIZE_TIERS hsorted st
    (by unfold yamatoSizeTierFromSum at hst; exact hst)
  obtain ⟨hp2, hmem2, hleast2⟩ := find?_least YAMATO_SIZE_TIERS hsorted wt
    (by unfold yamatoSizeTierFromWeight at hwt; exact hwt)
  rw [decide_eq_true_iff] at hp1 hp2
  refine ⟨st, wt, hst, hwt, hmem1, hp1, ?_, hmem2, hp2, ?_, ?_⟩
  · intro t htm htc
    exact hleast1 t htm (by rw [decide_eq_true_iff]; exact htc)
  · intro t htm htc
    exact hleast2 t htm (by rw [decide_eq_true_iff]; exact htc)
  · simp only [yamatoCalcSize]
    rw [if_neg (not_lt.mpr hlong), if_neg (not_lt.mpr hsum), if_neg (not_lt.mpr hw),
      hst, hwt]

/-- Claim C5, witness: the 25×25×25 cm, 8 kg item of the spec's
scenario 3 — sum 75 gives sum-tier 80, weight 8 gives weight-tier 100,
so the applied size is 100 with `sizeSource` weight. -/
theorem claim_C5_witness :
    ((sort3desc 25 25 25).1 ≤ YAMATO_MAX_LONGEST_CM ∧
      (25 : ℚ) + 25 + 25 ≤ YAMATO_MAX_THREE_SIDE_CM ∧ (8 : ℚ) ≤ YAMATO_MAX_WEIGHT_KG) ∧
    yamatoSizeTierFromSum (25 + 25 + 25) = some 80 ∧
    yamatoSizeTierFromWeight 8 = some 100 ∧
    yamatoCalcSize 25 25 25 8 = .ok 75 25 80 100 100 .weight := by
  have h1 : (sort3desc 25 25 25).1 ≤ YAMATO_MAX_LONGEST_CM := by
    norm_num [sort3desc, YAMATO_MAX_LONGEST_CM]
  have h2 : (25 : ℚ) + 25 + 25 ≤ YAMATO_MAX_THREE_SIDE_CM := by
    norm_num [YAMATO_MAX_THREE_SIDE_CM]
  have h3 : (8 : ℚ) ≤ YAMATO_MAX_WEIGHT_KG := by norm_num [YAMATO_MAX_WEIGHT_KG]
  obtain ⟨st, wt, hst, hwt, _, _, _, _, _, _, hok⟩ := claim_C5 25 25 25 8 h1 h2 h3
  have hev1 : yamatoSizeTierFromSum ((25 : ℚ) + 25 + 25) = some 80 := by
    norm_num [yamatoSizeTierFromSum, YAMATO_SIZE_TIERS, List.find?]
  have hev2 : yamatoSizeTierFromWeight 8 = some 100 := by
    norm_num [yamatoSizeTierFromWeight, YAMATO_SIZE_TIERS, YAMATO_WEIGHT_LIMITS, List.find?]
  have hst80 : st = 80 := by rw [hst] at hev1; exact Option.some.injEq _ _ ▸ hev1
  have hwt100 : wt = 100 := by rw [hwt] at hev2; exact Option.some.injEq _ _ ▸ hev2
  subst hst80 hwt100
  refine ⟨⟨h1, h2, h3⟩, hst, hwt, ?_⟩
  rw [hok]
  norm_num [round1, round_eq, sort3desc]

-- ════════════════════════════════════════════════════════════════════
-- Claim C6
-- ════════════════════════════════════════════════════════════════════

/-- Helper: when a hard limit is violated, `yamatoCalcSize` returns the
error record for the first violated limit in source order (longest side,
then three-side sum, then weight). -/
theorem yamatoCalcSize_err (L W H w : ℚ)
    (hviol : YAMATO_MAX_LONGEST_CM < (sort3desc L W H).1 ∨
      YAMATO_MAX_THREE_SIDE_CM < L + W + H ∨ YAMATO_MAX_WEIGHT_KG < w) :
    yamatoCalcSize L W H w =
      .err (if YAMATO_MAX_LONGEST_CM < (sort3desc L W H).1 then .longest
        else if YAMATO_MAX_THREE_SIDE_CM < L + W + H then .threeSideSum else .weight)
        (L + W + H) (sort3desc L W H).1 := by
  simp only [yamatoCalcSize]
  split_ifs with hA hB hC <;> first | rfl | tauto

/-- Claim C6: a Yamato item over a hard limit yields a per-line error
result tagged with the first violated limit in check order, with zero
per-package and line totals; with quantity > 0 the line still appears in
`yamatoCalcAll`'s result lines while every subtotal and the grand total
are as if the line were absent. -/
theorem claim_C6 (item : Item) (hqty : 0 < item.qty)
    (hviol : YAMATO_MAX_LONGEST_CM < (sort3desc item.L item.W item.H).1 ∨
      YAMATO_MAX_THREE_SIDE_CM < item.L + item.W + item.H ∨
      YAMATO_MAX_WEIGHT_KG < item.weightKg)
    (xs ys : List Item) (origin destination : String) (payment : Payment)
    (samePrefecture : Bool) (coolType : CoolType) (sameDay : Bool)
    (selectedDiscounts : List String) (tables : YamatoRateTables)
    (ysurch : YamatoSurcharges) (discounts : String → Option ℚ) :
    (yamatoCalcLineItem item origin destination payment samePrefecture coolType sameDay
        selectedDiscounts tables ysurch discounts).error = true ∧
    (yamatoCalcLineItem item origin destination payment samePrefecture coolType sameDay
        selectedDiscounts tables ysurch discounts).errorReason =
      some (if YAMATO_MAX_LONGEST_CM < (sort3desc item.L item.W item.H).1 then .longest
        else if YAMATO_MAX_THREE_SIDE_CM < item.L + item.W + item.H then .threeSideSum
        else .weight) ∧
    (yamatoCalcLineItem item origin destination payment samePrefecture coolType sameDay
        selectedDiscounts tables ysurch discounts).perPkgTotal = 0 ∧
    (yamatoCalcLineItem item origin destination payment samePrefecture coolType sameDay
        selectedDiscounts tables ysurch discounts).lineTotal = 0 ∧
    yamatoCalcLineItem item origin destination payment samePrefecture coolType sameDay
        selectedDiscounts tables ysurch discounts ∈
      (yamatoCalcAll (xs ++ item :: ys) origin destination payment samePrefecture coolType
        sameDay selectedDiscounts tables ysurch discounts).lines ∧
    (yamatoCalcAll (xs ++ item :: ys) origin destination payment samePrefecture coolType
        sameDay selectedDiscounts tables ysurch discounts).grandTotal =
      (yamatoCalcAll (xs ++ ys) origin destination payment samePrefecture coolType
        sameDay selectedDiscounts tables ysurch discounts).grandTotal ∧
    (yamatoCalcAll (xs ++ item :: ys) origin destination payment samePrefecture coolType
        sameDay selectedDiscounts tables ysurch discounts).baseSubtotal =
      (yamatoCalcAll (xs ++ ys) origin destination payment samePrefecture coolType
        sameDay selectedDiscounts tables ysurch discounts).baseSubtotal ∧
    (yamatoCalcAll (xs ++ item :: ys) origin destination payment samePrefecture coolType
        sameDay selectedDiscounts tables ysurch discounts).coolSubtotal =
      (yamatoCalcAll (xs ++ ys) origin destination payment samePrefecture coolType
        sameDay selectedDiscounts tables ysurch discounts).coolSubtotal ∧
    (yamatoCalcAll (xs ++ item :: ys) origin destination payment samePrefecture coolType
        sameDay selectedDiscounts tables ysurch discounts).sameDaySubtotal =
      (yamatoCalcAll (xs ++ ys) origin destination payment samePrefecture coolType
        sameDay selectedDiscounts tables ysurch discounts).sameDaySubtotal ∧
    (yamatoCalcAll (xs ++ item :: ys) origin destination payment samePrefecture coolType
        sameDay selectedDiscounts tables ysurch discounts).discountSubtotal =
      (yamatoCalcAll (xs ++ ys) origin destination payment samePrefecture coolType
        sameDay selectedDiscounts tables ysurch discounts).discountSubtotal := by
  have hline : yamatoCalcLineItem item origin destination payment samePrefecture coolType
      sameDay selectedDiscounts tables ysurch discounts =
      { name := item.name
        L := item.L, W := item.W, H := item.H
        weightKg := item.weightKg, qty := item.qty
        error := true
        errorReason :=
          some (if YAMATO_MAX_LONGEST_CM < (sort3desc item.L item.W item.H).1 then .longest
            else if YAMATO_MAX_THREE_SIDE_CM < item.L + item.W + item.H then .threeSideSum
            else .weight)
        threeSideSum := item.L + item.W + item.H
        longest := (sort3desc item.L item.W item.H).1
        sumTier := none, weightTier := none
        appliedSize := none, sizeSource := none
        baseRate := 0
        isIntrapref := false
        coolSurcharge := 0
        coolError := false
        sameDaySurcharge := 0
        discountTotal := 0
        discountDetails := []
        perPkgTotal := 0
        lineTotal := 0 } := by
    unfold yamatoCalcLineItem
    rw [yamatoCalcSize_err _ _ _ _ hviol]
  have hsplit : ∀ l1 l2 : List Item,
      (l1 ++ item :: l2).filter (fun i => decide (0 < i.qty)) =
      l1.filter (fun i => decide (0 < i.qty)) ++
        item :: l2.filter fun i => decide (0 < i.qty) := by
    intro l1 l2
    simp [List.filter_append, List.filter_cons, hqty]
  refine ⟨by rw [hline], by rw [hline], by rw [hline], by rw [hline], ?_, ?_, ?_, ?_, ?_, ?_⟩
  · simp only [yamatoCalcAll, hsplit, List.map_append, List.map_cons]
    exact List.mem_append_right _ (List.mem_cons_self _ _)
  all_goals
    simp only [yamatoCalcAll, hsplit, List.filter_append, List.map_append, List.map_cons,
      List.sum_append, List.sum_cons, hline]
    ring
/-- Claim C6, witness: a 180×10×10 cm item (longest side over 170 cm)
with quantity 1 produces an error line tagged longest-side with zero
line total. -/
theorem claim_C6_witness :
    (0 : ℚ) < 1 ∧
    YAMATO_MAX_LONGEST_CM < (sort3desc (180 : ℚ) 10 10).1 ∧
    (yamatoCalcLineItem ⟨"big", 180, 10, 10, 5, 1⟩ "kanto" "kansai" .cash false .none false
        [] ytablesEmpty ysurchEmpty fun _ => none).error = true ∧
    (yamatoCalcLineItem ⟨"big", 180, 10, 10, 5, 1⟩ "kanto" "kansai" .cash false .none false
        [] ytablesEmpty ysurchEmpty fun _ => none).errorReason = some .longest ∧
    (yamatoCalcLineItem ⟨"big", 180, 10, 10, 5, 1⟩ "kanto" "kansai" .cash false .none false
        [] ytablesEmpty ysurchEmpty fun _ => none).lineTotal = 0 := by
  have hq : (0 : ℚ) < (⟨"big", 180, 10, 10, 5, 1⟩ : Item).qty := by norm_num
  have hv1 : YAMATO_MAX_LONGEST_CM < (sort3desc (180 : ℚ) 10 10).1 := by
    norm_num [sort3desc, YAMATO_MAX_LONGEST_CM, max_def]
  obtain ⟨h1, h2, _, h4, _⟩ := claim_C6 ⟨"big", 180, 10, 10, 5, 1⟩ hq (Or.inl hv1) [] []
    "kanto" "kansai" .cash false .none false [] ytablesEmpty ysurchEmpty fun _ => none
  refine ⟨by norm_num, hv1, h1, ?_, h4⟩
  rw [h2, if_pos hv1]

-- ════════════════════════════════════════════════════════════════════
-- Claim C7
-- ════════════════════════════════════════════════════════════════════

/-- Claim C7: for a Yamato line whose size classification succeeds with
applied size `S` and with cool service requested, the line is not a hard
error and its base rate is the ordinary rate lookup; when `S > 120` the
line carries `coolError = true`, a zero cool surcharge, and a valid
per-package total built from base rate, same-day surcharge and
discounts; when `S ≤ 120` `coolError` is false and the table's cool
surcharge enters the total. -/
theorem claim_C7 (item : Item) (origin destination : String) (payment : Payment)
    (samePrefecture : Bool) (coolType : CoolType) (sameDay : Bool)
    (selectedDiscounts : List String) (tables : YamatoRateTables)
    (ysurch : YamatoSurcharges) (discounts : String → Option ℚ)
    (tss lg : ℚ) (st wt S : ℕ) (src : SizeSource)
    (hsize : yamatoCalcSize item.L item.W item.H item.weightKg = .ok tss lg st wt S src)
    (hcool : coolType ≠ CoolType.none) :
    (yamatoCalcLineItem item origin destination payment samePrefecture coolType sameDay
        selectedDiscounts tables ysurch discounts).error = false ∧
    (yamatoCalcLineItem item origin destination payment samePrefecture coolType sameDay
        selectedDiscounts tables ysurch discounts).baseRate =
      (yamatoLookupRate origin destination S payment tables samePrefecture).1 ∧
    (120 < S →
      (yamatoCalcLineItem item origin destination payment samePrefecture coolType sameDay
          selectedDiscounts tables ysurch discounts).coolError = true ∧
      (yamatoCalcLineItem item origin destination payment samePrefecture coolType sameDay
          selectedDiscounts tables ysurch discounts).coolSurcharge = 0 ∧
      (yamatoCalcLineItem item origin destination payment samePrefecture coolType sameDay
          selectedDiscounts tables ysurch discounts).perPkgTotal =
        max 0 ((yamatoLookupRate origin destination S payment tables samePrefecture).1 +
          yamatoGetSameDaySurcharge sameDay origin destination ysurch +
          (yamatoCalcDiscounts selectedDiscounts discounts).1)) ∧
    (S ≤ 120 →
      (yamatoCalcLineItem item origin destination payment samePrefecture coolType sameDay
          selectedDiscounts tables ysurch discounts).coolError = false ∧
      some (yamatoCalcLineItem item origin destination payment samePrefecture coolType sameDay
          selectedDiscounts tables ysurch discounts).coolSurcharge =
        yamatoGetCoolSurcharge S coolType ysurch ∧
      (yamatoCalcLineItem item origin destination payment samePrefecture coolType sameDay
          selectedDiscounts tables ysurch discounts).perPkgTotal =
        max 0 ((yamatoLookupRate origin destination S payment tables samePrefecture).1 +
          (yamatoCalcLineItem item origin destination payment samePrefecture coolType sameDay
            selectedDiscounts tables ysurch discounts).coolSurcharge +
          yamatoGetSameDaySurcharge sameDay origin destination ysurch +
          (yamatoCalcDiscounts selectedDiscounts discounts).1)) := by
  have hline : yamatoCalcLineItem item origin destination payment samePrefecture coolType
      sameDay selectedDiscounts tables ysurch discounts =
      { name := item.name
        L := item.L, W := item.W, H := item.H
        weightKg := item.weightKg, qty := item.qty
        error := false
        errorReason := none
        threeSideSum := tss
        longest := lg
        sumTier := some st, weightTier := some wt
        appliedSize := some S, sizeSource := some src
        baseRate := (yamatoLookupRate origin destination S payment tables samePrefecture).1
        isIntrapref := (yamatoLookupRate origin destination S payment tables samePrefecture).2
        coolSurcharge :=
          match yamatoGetCoolSurcharge S coolType ysurch with
          | some amount => amount
          | Option.none => 0
        coolError := decide (yamatoGetCoolSurcharge S coolType ysurch = Option.none)
        sameDaySurcharge := yamatoGetSameDaySurcharge sameDay origin destination ysurch
        discountTotal := (yamatoCalcDiscounts selectedDiscounts discounts).1
        discountDetails := (yamatoCalcDiscounts selectedDiscounts discounts).2
        perPkgTotal :=
          max 0 ((yamatoLookupRate origin destination S payment tables samePrefecture).1 +
            (match yamatoGetCoolSurcharge S coolType ysurch with
              | some amount => amount
              | Option.none => 0) +
            yamatoGetSameDaySurcharge sameDay origin destination ysurch +
            (yamatoCalcDiscounts selectedDiscounts discounts).1)
        lineTotal :=
          max 0 ((yamatoLookupRate origin destination S payment tables samePrefecture).1 +
            (match yamatoGetCoolSurcharge S coolType ysurch with
              | some amount => amount
              | Option.none => 0) +
            yamatoGetSameDaySurcharge sameDay origin destination ysurch +
            (yamatoCalcDiscounts selectedDiscounts discounts).1) * item.qty } := by
    unfold yamatoCalcLineItem
    rw [hsize]
  refine ⟨by rw [hline], by rw [hline], ?_, ?_⟩
  · intro hS
    have hnone : yamatoGetCoolSurcharge S coolType ysurch = Option.none := by
      unfold yamatoGetCoolSurcharge
      rw [if_neg hcool, if_pos hS]
    rw [hline]
    refine ⟨by simp [hnone], by simp [hnone], by simp [hnone]⟩
  · intro hS
    obtain ⟨c, hc⟩ : ∃ c, yamatoGetCoolSurcharge S coolType ysurch = some c := by
      unfold yamatoGetCoolSurcharge
      rw [if_neg hcool, if_neg (not_lt.mpr hS)]
      cases ysurch.cool with
      | none => exact ⟨0, rfl⟩
      | some coolData => exact ⟨coolData S, rfl⟩
    rw [hline]
    refine ⟨by simp [hc], by simp [hc], by simp [hc]⟩
/-- Helper rate tables for the claim C7 witness: kanto → kansai size 140
costs 2310. -/
def ytablesC7 : YamatoRateTables :=
  ⟨fun o => if o = "kanto"
      then some fun s => if s = 140
        then some fun d => if d = "kansai" then some 2310 else none
        else none
      else none,
    fun _ => none, fun _ _ => none⟩

/-- Helper surcharges for the claim C7 witness: a cool table charging 330
at size 100. -/
def ysurchC7 : YamatoSurcharges := ⟨some fun s => if s = 100 then 330 else 0, none⟩

/-- Claim C7, witness: a 50×45×35 cm, 5 kg item resolves to size 140;
requesting chilled service sets `coolError`, keeps the cool surcharge at
zero, and still produces the ordinary total. -/
theorem claim_C7_witness :
    yamatoCalcSize 50 45 35 5 = .ok 130 50 140 80 140 .sum ∧
    CoolType.chilled ≠ CoolType.none ∧
    (120 : ℕ) < 140 ∧
    (yamatoCalcLineItem ⟨"c", 50, 45, 35, 5, 1⟩ "kanto" "kansai" .cash false .chilled false
        [] ytablesC7 ysurchC7 fun _ => none).error = false ∧
    (yamatoCalcLineItem ⟨"c", 50, 45, 35, 5, 1⟩ "kanto" "kansai" .cash false .chilled false
        [] ytablesC7 ysurchC7 fun _ => none).coolError = true ∧
    (yamatoCalcLineItem ⟨"c", 50, 45, 35, 5, 1⟩ "kanto" "kansai" .cash false .chilled false
        [] ytablesC7 ysurchC7 fun _ => none).coolSurcharge = 0 ∧
    (yamatoCalcLineItem ⟨"c", 50, 45, 35, 5, 1⟩ "kanto" "kansai" .cash false .chilled false
        [] ytablesC7 ysurchC7 fun _ => none).perPkgTotal =
      max 0 ((yamatoLookupRate "kanto" "kansai" 140 .cash ytablesC7 false).1 +
        yamatoGetSameDaySurcharge false "kanto" "kansai" ysurchC7 +
        (yamatoCalcDiscounts [] fun _ => none).1) := by
  have hsize : yamatoCalcSize (50 : ℚ) 45 35 5 = .ok 130 50 140 80 140 .sum := by
    norm_num [yamatoCalcSize, sort3desc, max_def, min_def, yamatoSizeTierFromSum,
      yamatoSizeTierFromWeight, YAMATO_SIZE_TIERS, YAMATO_WEIGHT_LIMITS,
      YAMATO_MAX_LONGEST_CM, YAMATO_MAX_THREE_SIDE_CM, YAMATO_MAX_WEIGHT_KG,
      List.find?, round1, round_eq]
  obtain ⟨h1, _, h3, _⟩ := claim_C7 ⟨"c", 50, 45, 35, 5, 1⟩ "kanto" "kansai" .cash false
    .chilled false [] ytablesC7 ysurchC7 (fun _ => none) 130 50 140 80 140 .sum hsize
    (by decide)
  obtain ⟨hc1, hc2, hc3⟩ := h3 (by norm_num)
  exact ⟨hsize, by decide, by norm_num, h1, hc1, hc2, hc3⟩

-- ════════════════════════════════════════════════════════════════════
-- Claims C9 and C10 : the Amazon fuel-percentage loops
-- ════════════════════════════════════════════════════════════════════

/-- Helper: a finished run of the below-table loop performed the least
number `n` of price steps that brackets the target and subtracted the
percentage increment `n` times. -/
theorem fuelLoopBelow_sound (target inc incPct : ℚ) :
    ∀ (fuel : ℕ) (price pct v : ℚ),
      fuelLoopBelow target inc incPct fuel price pct = some v →
      ∃ n : ℕ, price - n * inc ≤ target ∧ (∀ m : ℕ, m < n → target < price - m * inc) ∧
        v = pct - n * incPct := by
  intro fuel
  induction fuel with
  | zero =>
    intro price pct v hv
    simp only [fuelLoopBelow] at hv
    by_cases h : target < price
    · rw [if_pos h] at hv; cases hv
    · rw [if_neg h] at hv
      obtain rfl : pct = v := Option.some.inj hv
      refine ⟨0, ?_, by omega, by push_cast; ring⟩
      push_cast; linarith [not_lt.mp h]
  | succ n ih =>
    intro price pct v hv
    simp only [fuelLoopBelow] at hv
    by_cases h : target < price
    · rw [if_pos h] at hv
      obtain ⟨k, h1, h2, h3⟩ := ih (price - inc) (pct - incPct) v hv
      refine ⟨k + 1, ?_, ?_, ?_⟩
      · push_cast; linarith
      · intro m hm
        cases m with
        | zero => simpa using h
        | succ j =>
          have := h2 j (by omega)
          push_cast; push_cast at this; linarith
      · rw [h3]; push_cast; ring
    · rw [if_neg h] at hv
      obtain rfl : pct = v := Option.some.inj hv
      refine ⟨0, ?_, by omega, by push_cast; ring⟩
      push_cast; linarith [not_lt.mp h]

/-- Helper: the below-table loop finishes within `k` steps once `k` price
decrements reach the target. -/
theorem fuelLoopBelow_term (target inc incPct : ℚ) :
    ∀ (k : ℕ) (price pct : ℚ), price - k * inc ≤ target →
      ∃ v, fuelLoopBelow target inc incPct k price pct = some v := by
  intro k
  induction k with
  | zero =>
    intro price pct h
    refine ⟨pct, ?_⟩
    simp only [fuelLoopBelow]
    rw [if_neg (not_lt.mpr (by push_cast at h; linarith))]
  | succ n ih =>
    intro price pct h
    simp only [fuelLoopBelow]
    by_cases hp : target < price
    · rw [if_pos hp]
      apply ih
      push_cast at h ⊢
      linarith
    · rw [if_neg hp]
      exact ⟨pct, rfl⟩

/-- Helper: with a positive price increment some number of decrements
reaches any target. -/
theorem exists_steps_below (target inc : ℚ) (hinc : 0 < inc) (price : ℚ) :
    ∃ k : ℕ, price - k * inc ≤ target := by
  refine ⟨(⌈(price - target) / inc⌉).toNat, ?_⟩
  have h1 : (price - target) / inc ≤ ((⌈(price - target) / inc⌉ : ℤ) : ℚ) := Int.le_ceil _
  have h2 : ((⌈(price - target) / inc⌉ : ℤ) : ℚ) ≤ ((⌈(price - target) / inc⌉.toNat : ℕ) : ℚ) := by
    exact_mod_cast Int.self_le_toNat _
  have h3 : price - target ≤ ((⌈(price - target) / inc⌉.toNat : ℕ) : ℚ) * inc :=
    (div_le_iff₀ hinc).mp (h1.trans h2)
  linarith

/-- Helper: a finished run of the above-table loop performed the least
number `n` of price steps that passes the target and added the
percentage increment `n` times. -/
theorem fuelLoopAbove_sound (target inc incPct : ℚ) :
    ∀ (fuel : ℕ) (price pct v : ℚ),
      fuelLoopAbove target inc incPct fuel price pct = some v →
      ∃ n : ℕ, target < price + n * inc ∧ (∀ m : ℕ, m < n → price + m * inc ≤ target) ∧
        v = pct + n * incPct := by
  intro fuel
  induction fuel with
  | zero =>
    intro price pct v hv
    simp only [fuelLoopAbove] at hv
    by_cases h : price ≤ target
    · rw [if_pos h] at hv; cases hv
    · rw [if_neg h] at hv
      obtain rfl : pct = v := Option.some.inj hv
      refine ⟨0, ?_, by omega, by push_cast; ring⟩
      push_cast; linarith [not_le.mp h]
  | succ n ih =>
    intro price pct v hv
    simp only [fuelLoopAbove] at hv
    by_cases h : price ≤ target
    · rw [if_pos h] at hv
      obtain ⟨k, h1, h2, h3⟩ := ih (price + inc) (pct + incPct) v hv
      refine ⟨k + 1, ?_, ?_, ?_⟩
      · push_cast; linarith
      · intro m hm
        cases m with
        | zero => simpa using h
        | succ j =>
          have := h2 j (by omega)
          push_cast; push_cast at this; linarith
      · rw [h3]; push_cast; ring
    · rw [if_neg h] at hv
      obtain rfl : pct = v := Option.some.inj hv
      refine ⟨0, ?_, by omega, by push_cast; ring⟩
      push_cast; linarith [not_le.mp h]

/-- Helper: the above-table loop finishes within `k` steps once `k` price
increments pass the target. -/
theorem fuelLoopAbove_term (target inc incPct : ℚ) :
    ∀ (k : ℕ) (price pct : ℚ), target < price + k * inc →
      ∃ v, fuelLoopAbove target inc incPct k price pct = some v := by
  intro k
  induction k with
  | zero =>
    intro price pct h
    refine ⟨pct, ?_⟩
    simp only [fuelLoopAbove]
    rw [if_neg (not_le.mpr (by push_cast at h; linarith))]
  | succ n ih =>
    intro price pct h
    simp only [fuelLoopAbove]
    by_cases hp : price ≤ target
    · rw [if_pos hp]
      apply ih
      push_cast at h ⊢
      linarith
    · rw [if_neg hp]
      exact ⟨pct, rfl⟩

/-- Helper: with a positive price increment some number of increments
passes any target. -/
theorem exists_steps_above (target inc : ℚ) (hinc : 0 < inc) (price : ℚ) :
    ∃ k : ℕ, target < price + k * inc := by
  obtain ⟨k, hk⟩ := exists_steps_below (-target) inc hinc (-price)
  refine ⟨k + 1, ?_⟩
  push_cast at hk ⊢
  have hx : ((k : ℚ) + 1) * inc = (k : ℚ) * inc + inc := by ring
  linarith

/-- Claim C10: `amazonGetFuelPct` terminates for every diesel price and
configuration provided that, whenever an extension rule is present, its
`increment_price` is strictly positive — some fuel bound suffices for
both extension loops (the spec states no such requirement on the
configuration). -/
theorem claim_C10 (p : ℚ) (sd : AmznSurchargeData)
    (hinc : ∀ ext, sd.fuel_extension_rule = some ext → 0 < ext.increment_price) :
    ∃ fuel v, amazonGetFuelPct fuel p sd = some v := by
  unfold amazonGetFuelPct
  cases htab : sd.fuel_diesel_table with
  | none => exact ⟨0, 0, rfl⟩
  | some table =>
    by_cases hp : p = 0
    · exact ⟨0, 0, by simp [hp]⟩
    · cases table with
      | nil =>
        cases hext : sd.fuel_extension_rule with
        | none => exact ⟨0, 0, by simp [hp, hext]⟩
        | some ext => exact ⟨0, 0, by simp [hp, hext]⟩
      | cons firstRow rest =>
        cases hfind : (firstRow :: rest).find?
            fun row => decide (row.min ≤ p) && decide (p < row.max) with
        | some row => exact ⟨0, row.pct, by simp [hp, hfind]⟩
        | none =>
          cases hext : sd.fuel_extension_rule with
          | none => exact ⟨0, 0, by simp [hp, hfind, hext]⟩
          | some ext =>
            have hinc' : 0 < ext.increment_price := hinc ext hext
            by_cases hbelow : p < firstRow.min
            · obtain ⟨k, hk⟩ := exists_steps_below p ext.increment_price hinc' firstRow.min
              obtain ⟨v, hv⟩ := fuelLoopBelow_term p ext.increment_price ext.increment_pct
                k firstRow.min firstRow.pct hk
              exact ⟨k, max 0 (round2 v), by simp [hp, hfind, hext, hbelow, hv]⟩
            · obtain ⟨k, hk⟩ := exists_steps_above p ext.increment_price hinc'
                ((firstRow :: rest).getLast (List.cons_ne_nil _ _)).max
              obtain ⟨v, hv⟩ := fuelLoopAbove_term p ext.increment_price ext.increment_pct
                k ((firstRow :: rest).getLast (List.cons_ne_nil _ _)).max
                (((firstRow :: rest).getLast (List.cons_ne_nil _ _)).pct + ext.increment_pct) hk
              exact ⟨k, round2 (v - ext.increment_pct),
                by simp [hp, hfind, hext, hbelow, hv]⟩
/-- Helper: rounding to 2 decimals is idempotent. -/
theorem round2_round2 (q : ℚ) : round2 (round2 q) = round2 q := by
  unfold round2
  rw [div_mul_cancel₀ _ (by norm_num : (100 : ℚ) ≠ 0), round_intCast]

/-- Claim C9: for a nonzero diesel price below every band minimum of a
nonempty fuel table, with an extension rule of positive price increment,
`amazonGetFuelPct` subtracts the percentage increment once per price
step for the least number of steps `n` that brackets the price
(uniquely, whatever the fuel bound), and the returned percentage is the
2-decimal rounding clamped at zero, hence non-negative and equal to its
own rounding. -/
theorem claim_C9 (p : ℚ) (sd : AmznSurchargeData) (firstRow : FuelRow)
    (rest : List FuelRow) (ext : FuelExt)
    (htab : sd.fuel_diesel_table = some (firstRow :: rest))
    (hp : p ≠ 0)
    (hbelow : ∀ r ∈ firstRow :: rest, p < r.min)
    (hext : sd.fuel_extension_rule = some ext)
    (hinc : 0 < ext.increment_price) :
    ∃ (n : ℕ) (v : ℚ),
      (∃ fuel, amazonGetFuelPct fuel p sd = some v) ∧
      (∀ fuel w, amazonGetFuelPct fuel p sd = some w → w = v) ∧
      firstRow.min - n * ext.increment_price ≤ p ∧
      (∀ m : ℕ, m < n → p < firstRow.min - m * ext.increment_price) ∧
      v = max 0 (round2 (firstRow.pct - n * ext.increment_pct)) ∧
      0 ≤ v ∧ round2 v = v := by
  have hb0 : p < firstRow.min := hbelow firstRow (List.mem_cons_self _ _)
  have hfind : (firstRow :: rest).find?
      (fun row => decide (row.min ≤ p) && decide (p < row.max)) = none := by
    rw [List.find?_eq_none]
    intro r hr
    simp only [Bool.and_eq_true, decide_eq_true_iff]
    rintro ⟨h1, _⟩
    exact absurd h1 (not_le.mpr (hbelow r hr))
  obtain ⟨k, hk⟩ := exists_steps_below p ext.increment_price hinc firstRow.min
  obtain ⟨v0, hv0⟩ := fuelLoopBelow_term p ext.increment_price ext.increment_pct
    k firstRow.min firstRow.pct hk
  obtain ⟨n, hn1, hn2, hn3⟩ := fuelLoopBelow_sound p ext.increment_price ext.increment_pct
    k firstRow.min firstRow.pct v0 hv0
  refine ⟨n, max 0 (round2 v0), ⟨k, ?_⟩, ?_, hn1, hn2, ?_, le_max_left _ _, ?_⟩
  · simp [amazonGetFuelPct, htab, hp, hfind, hext, hb0, hv0]
  · intro fuel w hw
    simp only [amazonGetFuelPct, htab, hfind, hext, if_neg hp, if_pos hb0] at hw
    rw [Option.map_eq_some'] at hw
    obtain ⟨u, hu, huw⟩ := hw
    obtain ⟨m, hm1, hm2, hm3⟩ := fuelLoopBelow_sound p ext.increment_price ext.increment_pct
      fuel firstRow.min firstRow.pct u hu
    have hmn : m = n := by
      by_contra hne
      rcases Nat.lt_or_ge m n with hlt | hge
      · exact absurd hm1 (not_le.mpr (hn2 m hlt))
      · have hlt2 : n < m := by omega
        exact absurd hn1 (not_le.mpr (hm2 n hlt2))
    have huv : u = v0 := by rw [hm3, hmn]; exact hn3.symm
    rw [← huw, huv]
  · rw [hn3]
  · rcases le_total (round2 v0) 0 with h | h
    · rw [max_eq_left h]
      unfold round2
      norm_num
    · rw [max_eq_right h]
      exact round2_round2 v0
/-- Helper Amazon surcharge data for the fuel witnesses: one band
[2, 3) at 10 percent, extension steps of 0.25 dollars / 0.5 points. -/
def asdC9 : AmznSurchargeData :=
  ⟨fun _ => none, some [⟨2, 3, 10⟩], some ⟨1 / 4, 1 / 2⟩, fun _ => none, fun _ => 0⟩

/-- Claim C10, witness: the loop terminates on a concrete configuration
whose extension increment is positive, at price 1 below the table. -/
theorem claim_C10_witness : ∃ fuel v, amazonGetFuelPct fuel 1 asdC9 = some v :=
  claim_C10 1 asdC9 (by
    intro ext hext
    simp only [asdC9] at hext
    injection hext with h
    subst h
    norm_num)

/-- Claim C9, witness: price 1 under the single band [2, 3) at 10 percent
with steps of 0.25 / 0.5 — the conclusion instantiated concretely. -/
theorem claim_C9_witness :
    ∃ (n : ℕ) (v : ℚ),
      (∃ fuel, amazonGetFuelPct fuel 1 asdC9 = some v) ∧
      (∀ fuel w, amazonGetFuelPct fuel 1 asdC9 = some w → w = v) ∧
      (2 : ℚ) - n * (1 / 4) ≤ 1 ∧
      (∀ m : ℕ, m < n → (1 : ℚ) < 2 - m * (1 / 4)) ∧
      v = max 0 (round2 (10 - n * (1 / 2))) ∧
      0 ≤ v ∧ round2 v = v :=
  claim_C9 1 asdC9 ⟨2, 3, 10⟩ [] ⟨1 / 4, 1 / 2⟩ rfl (by norm_num)
    (by
      intro r hr
      simp only [List.mem_singleton] at hr
      subst hr
      norm_num)
    rfl (by norm_num)

end Shipping
